import Mathlib

/-!
Verification development for the Call2Code productivity backend.

The definitions below are a shallow embedding of the TypeScript sources:
* src/services/taskAlignment.ts   (alignTasksWithPlan, isValidUUID)
* src/utils/ai.ts                 (callOptimalAI, cleanAIResponse, parseTimeString)
* src/controllers/aiController.ts (extractTasksFromVoice JSON extraction and task cleanup)
* src/controllers/gameController.ts (saveGameHighScore)

JavaScript's loose typing is modelled with Option fields: `none` stands for a field
that is absent (undefined/null) and, where the code type-checks the field, also for a
value of the wrong runtime type.  JS truthiness of strings and numbers is modelled
explicitly.  The SQL store is modelled as a list of rows; each `sql.query` call
consumes one slot of a failure oracle so that persistence errors on individual
statements can be injected.
-/

namespace Call2Code

/-- JS truthiness of an optional string field: undefined/null and "" are falsy. -/
def strTruthy : Option String → Bool
  | none => false
  | some s => !(s == "")

/-- JS falsiness of an optional string field. -/
def strFalsy (o : Option String) : Bool := !(strTruthy o)

/-- JS truthiness of an optional numeric field: undefined/null and 0 are falsy. -/
def intTruthy : Option Int → Bool
  | none => false
  | some n => !(n == 0)

/-- JS `a || b` where a is an optional string and b is a string. -/
def strOrS (a : Option String) (b : String) : String :=
  match a with
  | none => b
  | some s => if s == "" then b else s

/-- JS `a || b` where both sides are optional strings (b may itself be null). -/
def strOr (a : Option String) (b : Option String) : Option String :=
  if strTruthy a then a else b

/-- JS `a || b` where a is an optional number and b is a number. -/
def intOr (a : Option Int) (b : Int) : Int :=
  match a with
  | none => b
  | some n => if n == 0 then b else n

/-- JS `a || null` for an optional string (empty string collapses to null). -/
def jsOrNull (a : Option String) : Option String :=
  if strTruthy a then a else none

/-- String.toLower in a form the kernel evaluates (character-wise map). -/
def strToLower (s : String) : String := String.mk (s.data.map Char.toLower)

/-- Whitespace trim of a character list. -/
def trimChars (cs : List Char) : List Char :=
  ((cs.dropWhile Char.isWhitespace).reverse.dropWhile Char.isWhitespace).reverse

/-- String.trim in a form the kernel evaluates. -/
def strTrim (s : String) : String := String.mk (trimChars s.data)

/-- Lower-case hexadecimal digit (after toLowerCase). -/
def isHexLower (c : Char) : Bool :=
  c.isDigit || (('a' ≤ c) && (c ≤ 'f'))

/-- The body of isValidUUID's regex
    ^[0-9a-f]\x7b8\x7d-[0-9a-f]\x7b4\x7d-[1-5][0-9a-f]\x7b3\x7d-[89ab][0-9a-f]\x7b3\x7d-[0-9a-f]\x7b12\x7d$
    with the /i flag, on a 36-character string. -/
def uuidRegexMatch (s : String) : Bool :=
  let cs := (strToLower s).toList
  cs.length == 36 &&
  ((List.range 36).all fun i =>
    let c := cs.getD i ' '
    if i == 8 || i == 13 || i == 18 || i == 23 then c == '-'
    else if i == 14 then ('1' ≤ c && c ≤ '5')
    else if i == 19 then (c == '8' || c == '9' || c == 'a' || c == 'b')
    else isHexLower c)

/-- isValidUUID from src/services/taskAlignment.ts: `!id` and non-strings are rejected,
    otherwise the canonical 8-4-4-4-12 pattern with version/variant nibbles is tested. -/
def isValidUUID : Option String → Bool
  | none => false
  | some s => if s == "" then false else uuidRegexMatch s

/-- One AI-proposed operation (an element of generatedTasks): a loosely typed JS object.
    Absent fields are `none`; fields whose runtime type the code rejects are also
    modelled as `none`. -/
structure Op where
  id : Option String := none
  action : Option String := none
  title : Option String := none
  duration : Option Int := none
  importance : Option String := none
  status : Option String := none
  scheduledTime : Option String := none
deriving Repr, DecidableEq

/-- A row of the tasks table (also the shape of the existingTasks snapshot rows). -/
structure DBTask where
  id : String
  user_id : String
  title : String
  duration_minutes : Int
  importance : String
  status : String
  scheduled_time : Option String := none
deriving Repr, DecidableEq

/-- A conflicts entry: the \x7bissue, suggestion\x7d pairs pushed by the engine. -/
structure Conflict where
  issue : String
  suggestion : String
deriving Repr, DecidableEq

/-- The newTask object literal pushed onto insertedTasks after a successful INSERT. -/
structure InsRec where
  id : String
  title : String
  duration : Int
  importance : String
  scheduledTime : Option String
  status : String
deriving Repr, DecidableEq

/-- deletedTasks entries: the rescue path pushes the spread of the matched existing row
    (plus an action:'delete' marker), the direct path pushes an \x7bid, title\x7d literal. -/
inductive DelRec where
  | rescued (t : DBTask)
  | direct (id : String) (title : String)
deriving Repr, DecidableEq

/-- The task id referenced by a deletedTasks record. -/
def DelRec.refId : DelRec → String
  | .rescued t => t.id
  | .direct i _ => i

/-- modifiedTasks entries; originalTitle is present only on the rescue path. -/
structure ModRec where
  id : String
  title : String
  originalTitle : Option String := none
deriving Repr, DecidableEq

/-- JSON.stringify of a proposed operation, used inside some conflict messages.
    The runtime key order of the AI-produced object is not recoverable from this
    abstraction; the declaration order of Op is used, skipping absent fields. -/
def opStringify (op : Op) : String :=
  let fields : List (Option String) := [
    op.id.map (fun v => "\"id\":\"" ++ v ++ "\""),
    op.action.map (fun v => "\"action\":\"" ++ v ++ "\""),
    op.title.map (fun v => "\"title\":\"" ++ v ++ "\""),
    op.duration.map (fun v => "\"duration\":" ++ toString v),
    op.importance.map (fun v => "\"importance\":\"" ++ v ++ "\""),
    op.status.map (fun v => "\"status\":\"" ++ v ++ "\""),
    op.scheduledTime.map (fun v => "\"scheduledTime\":\"" ++ v ++ "\"")
  ]
  "\x7b" ++ String.intercalate "," (fields.filterMap id) ++ "\x7d"

/-- The mutable engine state: the tasks table, the id generator, the number of
    sql.query calls issued so far, and the four accumulator lists of results. -/
structure AlignState where
  db : List DBTask
  nextId : Nat
  qIdx : Nat
  insertedTasks : List InsRec := []
  modifiedTasks : List ModRec := []
  deletedTasks : List DelRec := []
  conflicts : List Conflict := []
deriving Repr, DecidableEq

/-- Persistence-failure oracle: failq n = true means the (n+1)-th sql.query call of the
    batch throws. -/
structure AlignEnv where
  failq : Nat → Bool

/-- The environment in which every query succeeds. -/
def noFail : AlignEnv := ⟨fun _ => false⟩

/-- The environment in which every query throws. -/
def allFail : AlignEnv := ⟨fun _ => true⟩

/-- The id assigned by the database to the n-th freshly inserted row (opaque). -/
def freshId (n : Nat) : String := toString n

/-- str.toLowerCase().includes(needle) over already-lowered strings is substring search;
    this is JS includes on plain strings. -/
def jsIncludes (hay needle : String) : Bool :=
  let h := hay.toList
  let n := needle.toList
  (List.range (h.length + 1)).any fun i => n.isPrefixOf (h.drop i)

/-- str.substring(0, n). -/
def jsSubstring0 (s : String) (n : Nat) : String := String.mk (s.toList.take n)

/-- Title validation of the create pass:
    !task.title || typeof task.title !== 'string' || !task.title.trim(). -/
def titleInvalid : Option String → Bool
  | none => true
  | some s => s == "" || strTrim s == ""

/-- Duration validation of the create pass:
    !task.duration || typeof task.duration !== 'number' || task.duration <= 0. -/
def durationInvalid : Option Int → Bool
  | none => true
  | some d => d == 0 || d ≤ 0

/-- The fuzzy duplicate check of the create pass: some existing title contains the
    first 20 characters of the proposed title (case-insensitively) or vice versa. -/
def findSimilar (existingTasks : List DBTask) (title : String) : Option DBTask :=
  existingTasks.find? fun ex =>
    jsIncludes (strToLower ex.title) (jsSubstring0 (strToLower title) 20) ||
    jsIncludes (strToLower title) (jsSubstring0 (strToLower ex.title) 20)

/-- The rescue lookup shared by the delete and modify passes:
    existingTasks.find(t => t.title.toLowerCase() === (task.title || '').toLowerCase()). -/
def findByTitle (existingTasks : List DBTask) (title : Option String) : Option DBTask :=
  existingTasks.find? fun t => strToLower t.title == strToLower (title.getD "")

/-- The create pass body for one create-shaped operation. -/
def processCreate (env : AlignEnv) (userId : String) (existingTasks : List DBTask)
    (task : Op) (st : AlignState) : AlignState :=
  if titleInvalid task.title then
    { st with conflicts := st.conflicts ++
        [⟨"Invalid task title: \"" ++ opStringify task ++ "\"",
          "Tasks must have a valid title"⟩] }
  else if durationInvalid task.duration then
    { st with conflicts := st.conflicts ++
        [⟨"Invalid task duration: \"" ++ task.title.getD "" ++ "\"",
          "Tasks must have a valid duration in minutes"⟩] }
  else
    match findSimilar existingTasks (task.title.getD "") with
    | some existingTask =>
        { st with conflicts := st.conflicts ++
            [⟨"Similar task already exists: \"" ++ existingTask.title ++ "\"",
              "Consider updating existing task instead of creating: \"" ++
                task.title.getD "" ++ "\""⟩] }
    | none =>
        -- INSERT INTO tasks ... RETURNING id (one query slot)
        if (env.failq st.qIdx) then
          { st with qIdx := st.qIdx + 1, conflicts := st.conflicts ++
              [⟨"Failed to create task: \"" ++ task.title.getD "" ++ "\"",
                "Task creation failed due to database error"⟩] }
        else
          let row : DBTask :=
            { id := freshId st.nextId
              user_id := userId
              title := strTrim (task.title.getD "")
              duration_minutes := intOr task.duration 30
              importance := strOrS task.importance "medium"
              status := "todo"
              scheduled_time := jsOrNull task.scheduledTime }
          { st with
              qIdx := st.qIdx + 1
              nextId := st.nextId + 1
              db := st.db ++ [row]
              insertedTasks := st.insertedTasks ++
                [⟨row.id, row.title, row.duration_minutes, row.importance,
                  row.scheduled_time, "todo"⟩] }

/-- deleteResult.rows[0]?.title || task.title || `Task $\x7btask.id\x7d`. -/
def jsDelTitle (affected : List DBTask) (task : Op) (tid : String) : String :=
  strOrS (affected.head?.map (fun r => r.title))
    (strOrS task.title ("Task " ++ tid))

/-- The delete pass body for one delete-shaped operation. -/
def processDelete (env : AlignEnv) (userId : String) (existingTasks : List DBTask)
    (task : Op) (st : AlignState) : AlignState :=
  if strFalsy task.id then
    { st with conflicts := st.conflicts ++
        [⟨"Cannot delete task without ID: \"" ++
            (if strTruthy task.title then task.title.getD "" else opStringify task) ++ "\"",
          "Skipping deletion due to missing ID"⟩] }
  else if !(isValidUUID task.id) then
    let st := { st with conflicts := st.conflicts ++
        [⟨"Invalid UUID format for deletion: \"" ++ task.id.getD "" ++ "\"",
          "Skipping deletion due to invalid UUID format"⟩] }
    -- rescue: resolve the real task by exact case-insensitive title match
    match findByTitle existingTasks task.title with
    | some matchingTask =>
        if isValidUUID (some matchingTask.id) then
          -- DELETE FROM tasks WHERE id = $1 AND user_id = $2 (one query slot); a
          -- throwing query is swallowed by the nested catch (console only)
          if (env.failq st.qIdx) then { st with qIdx := st.qIdx + 1 }
          else
            { st with
                qIdx := st.qIdx + 1
                db := st.db.filter fun r =>
                  !(r.id == matchingTask.id && r.user_id == userId)
                deletedTasks := st.deletedTasks ++ [.rescued matchingTask] }
        else st
    | none => st
  else
    -- DELETE FROM tasks WHERE id = $1 AND user_id = $2 RETURNING id, title
    if (env.failq st.qIdx) then
      { st with qIdx := st.qIdx + 1, conflicts := st.conflicts ++
          [⟨"Failed to delete task with ID: \"" ++ task.id.getD "" ++ "\"",
            "Database error during deletion"⟩] }
    else
      let tid := task.id.getD ""
      let affected := st.db.filter fun r => r.id == tid && r.user_id == userId
      if affected.length > 0 then
        { st with
            qIdx := st.qIdx + 1
            db := st.db.filter fun r => !(r.id == tid && r.user_id == userId)
            deletedTasks := st.deletedTasks ++ [.direct tid (jsDelTitle affected task tid)] }
      else
        { st with qIdx := st.qIdx + 1, conflicts := st.conflicts ++
            [⟨"No task found with ID: \"" ++ tid ++ "\"",
              "Task may have been already deleted or does not exist"⟩] }

/-- Field values written by the rescue-path UPDATE (no COALESCE: JS || against the
    snapshot row supplies every column, scheduled_time included). -/
def mergeRescue (task : Op) (m : DBTask) : DBTask :=
  { m with
      title := strOrS task.title m.title
      duration_minutes := intOr task.duration m.duration_minutes
      importance := strOrS task.importance m.importance
      status := strOrS task.status m.status
      scheduled_time := strOr task.scheduledTime m.scheduled_time }

/-- Field values written by the direct-path UPDATE: COALESCE($i, column) for title,
    duration_minutes, importance and status, but scheduled_time = $5 unconditionally. -/
def mergeDirect (task : Op) (r : DBTask) : DBTask :=
  { r with
      title := strOrS task.title r.title
      duration_minutes := intOr task.duration r.duration_minutes
      importance := strOrS task.importance r.importance
      status := strOrS task.status r.status
      scheduled_time := jsOrNull task.scheduledTime }

/-- The modify pass body for one modify-shaped operation. -/
def processModify (env : AlignEnv) (userId : String) (existingTasks : List DBTask)
    (task : Op) (st : AlignState) : AlignState :=
  if strFalsy task.id then
    { st with conflicts := st.conflicts ++
        [⟨"Cannot modify task without ID: \"" ++
            (if strTruthy task.title then task.title.getD "" else opStringify task) ++ "\"",
          "Skipping modification due to missing ID"⟩] }
  else if !(isValidUUID task.id) then
    let st := { st with conflicts := st.conflicts ++
        [⟨"Invalid UUID format for modification: \"" ++ task.id.getD "" ++ "\"",
          "Skipping modification due to invalid UUID format"⟩] }
    match findByTitle existingTasks task.title with
    | some matchingTask =>
        if isValidUUID (some matchingTask.id) then
          -- UPDATE tasks SET title=$1, duration_minutes=$2, importance=$3, status=$4,
          -- scheduled_time=$5 WHERE id=$6 AND user_id=$7 (one query slot); errors are
          -- swallowed by the nested catch; success is recorded without a rowCount check
          if (env.failq st.qIdx) then { st with qIdx := st.qIdx + 1 }
          else
            let newVals := mergeRescue task matchingTask
            { st with
                qIdx := st.qIdx + 1
                db := st.db.map fun r =>
                  if r.id == matchingTask.id && r.user_id == userId then
                    { r with
                        title := newVals.title
                        duration_minutes := newVals.duration_minutes
                        importance := newVals.importance
                        status := newVals.status
                        scheduled_time := newVals.scheduled_time }
                  else r
                modifiedTasks := st.modifiedTasks ++
                  [⟨matchingTask.id, strOrS task.title matchingTask.title,
                    some matchingTask.title⟩] }
        else st
    | none => st
  else
    -- UPDATE tasks SET title=COALESCE($1,title), ... , scheduled_time=$5
    -- WHERE id=$6 AND user_id=$7 RETURNING id, title
    if (env.failq st.qIdx) then
      { st with qIdx := st.qIdx + 1, conflicts := st.conflicts ++
          [⟨"Failed to modify task with ID: \"" ++ task.id.getD "" ++ "\"",
            "Database error during modification"⟩] }
    else
      let tid := task.id.getD ""
      let affected := st.db.filter fun r => r.id == tid && r.user_id == userId
      if affected.length > 0 then
        { st with
            qIdx := st.qIdx + 1
            db := st.db.map fun r =>
              if r.id == tid && r.user_id == userId then mergeDirect task r else r
            modifiedTasks := st.modifiedTasks ++
              [{ id := tid
                 title := strOrS task.title
                   (((affected.head?.map (mergeDirect task)).map (fun r => r.title)).getD "") }] }
      else
        { st with qIdx := st.qIdx + 1, conflicts := st.conflicts ++
            [⟨"No task found with ID: \"" ++ tid ++ "\" for modification",
              "Task may have been deleted or does not exist"⟩] }

/-- tasksToAdd: (!task.id && !task.action) || action === 'add' || action === 'create'. -/
def isCreateShaped (t : Op) : Bool :=
  (strFalsy t.id && strFalsy t.action) ||
  t.action == some "add" || t.action == some "create"

/-- tasksToDelete: action === 'delete' || action === 'remove' || action === 'completed'. -/
def isDeleteShaped (t : Op) : Bool :=
  t.action == some "delete" || t.action == some "remove" || t.action == some "completed"

/-- tasksToModify: action === 'modify' || action === 'update' || action === 'change'. -/
def isModifyShaped (t : Op) : Bool :=
  t.action == some "modify" || t.action == some "update" || t.action == some "change"

/-- An operation matching one of the three recognized shapes. -/
def isClassified (t : Op) : Bool :=
  isCreateShaped t || isDeleteShaped t || isModifyShaped t

/-- Number of operations of a batch that match one of the three shapes. -/
def classifiedCount (ops : List Op) : Nat := (ops.filter isClassified).length

/-- Run one pass over its filtered operations. -/
def runPass (stepFn : Op → AlignState → AlignState) (ops : List Op)
    (st : AlignState) : AlignState :=
  ops.foldl (fun s o => stepFn o s) st

/-- alignTasksWithPlan: three passes in fixed order (create, delete, modify), each over
    the operations its filter selects; results start empty.  currentPlan is accepted but
    never consulted, exactly as in the source. -/
def alignTasksWithPlan (env : AlignEnv) (userId : String) (generatedTasks : List Op)
    (existingTasks : List DBTask) (_currentPlan : Option String)
    (db : List DBTask) (nextId : Nat) : AlignState :=
  let st0 : AlignState := { db := db, nextId := nextId, qIdx := 0 }
  let st1 := runPass (processCreate env userId existingTasks)
    (generatedTasks.filter isCreateShaped) st0
  let st2 := runPass (processDelete env userId existingTasks)
    (generatedTasks.filter isDeleteShaped) st1
  runPass (processModify env userId existingTasks)
    (generatedTasks.filter isModifyShaped) st2

/-- Total number of records accumulated across the four result lists. -/
def totalEntries (st : AlignState) : Nat :=
  st.insertedTasks.length + st.modifiedTasks.length +
  st.deletedTasks.length + st.conflicts.length

/-! ## Model Router (src/utils/ai.ts, callOptimalAI) -/

/-- One entry of the AI_MODELS configuration map. -/
structure ModelConfig where
  name : String
  endpoint : String
  strengths : List String
  maxTokens : Nat
  costTier : String
  reliability : String
  specialization : Option String := none
deriving Repr, DecidableEq

/-- The AI_MODELS configuration map (association list keyed by model identifier). -/
def AI_MODELS : List (String × ModelConfig) := [
  ("mistral-medium-2505",
    ⟨"Mistral Medium 3", "mistral-medium-2505",
     ["complex-reasoning", "multimodal", "frontier-tasks"], 128000,
     "high", "high", some "complex-planning"⟩),
  ("magistral-medium-2506",
    ⟨"Magistral Medium", "magistral-medium-2506",
     ["reasoning", "logic", "problem-solving"], 40000,
     "high", "high", some "voice-extraction"⟩),
  ("mistral-large-2411",
    ⟨"Mistral Large 2.1", "mistral-large-2411",
     ["complex-tasks", "high-quality", "reliable"], 128000,
     "high", "high", some "schedule-planning"⟩),
  ("mistral-small-2506",
    ⟨"Mistral Small 3.2", "mistral-small-2506",
     ["general-tasks", "cost-effective", "fast"], 128000,
     "low", "high", some "task-generation"⟩),
  ("magistral-small-2506",
    ⟨"Magistral Small", "magistral-small-2506",
     ["reasoning", "structured-output", "reliable"], 40000,
     "medium", "high", some "voice-extraction-fallback"⟩),
  ("codestral-2501",
    ⟨"Codestral 2", "codestral-2501",
     ["coding", "structured-data", "fill-in-middle"], 256000,
     "medium", "high", some "json-generation"⟩),
  ("ministral-8b-2410",
    ⟨"Ministral 8B", "ministral-8b-2410",
     ["speed", "efficiency", "edge-computing"], 128000,
     "low", "medium", some "quick-tasks"⟩),
  ("ministral-3b-2410",
    ⟨"Ministral 3B", "ministral-3b-2410",
     ["ultra-fast", "edge", "simple-tasks"], 128000,
     "low", "medium", some "emergency-fallback"⟩),
  ("mistral-large-latest",
    ⟨"Mistral Large (Legacy)", "mistral-large-latest",
     ["complex-tasks", "reliable"], 128000,
     "high", "medium", some "legacy-fallback"⟩),
  ("mistral-small-latest",
    ⟨"Mistral Small (Legacy)", "mistral-small-latest",
     ["general-tasks", "cost-effective"], 32000,
     "medium", "medium", some "legacy-fallback"⟩)]

/-- TASK_MODEL_PRIORITIES: the per-task-type backend priority lists. -/
def TASK_MODEL_PRIORITIES : List (String × List String) := [
  ("voice-extraction",
    ["magistral-medium-2506", "magistral-small-2506", "mistral-large-2411",
     "mistral-small-2506", "ministral-8b-2410", "mistral-large-latest"]),
  ("schedule-planning",
    ["mistral-medium-2505", "mistral-large-2411", "magistral-medium-2506",
     "mistral-small-2506", "magistral-small-2506", "mistral-small-latest"]),
  ("task-generation",
    ["mistral-small-2506", "magistral-small-2506", "mistral-large-2411",
     "ministral-8b-2410", "ministral-3b-2410", "mistral-small-latest"]),
  ("json-parsing",
    ["codestral-2501", "magistral-small-2506", "mistral-small-2506",
     "ministral-8b-2410", "ministral-3b-2410"])]

/-- TASK_MODEL_PRIORITIES[taskType] || TASK_MODEL_PRIORITIES['task-generation']. -/
def priorityFor (taskType : String) : List String :=
  (TASK_MODEL_PRIORITIES.lookup taskType).getD
    ((TASK_MODEL_PRIORITIES.lookup "task-generation").getD [])

/-- The outcome of one fetch to the completions endpoint: success with a payload, an
    HTTP error status with body text, or a thrown network error. -/
inductive FetchOutcome where
  | ok (data : String)
  | httpErr (status : Nat) (errorText : String)
  | netErr (msg : String)
deriving Repr, DecidableEq

/-- The Error.message a failing iteration stores in lastError (HTTP failures throw
    `HTTP $\x7bstatus\x7d: $\x7btext\x7d`); none for a successful fetch. -/
def fetchErrMsg : FetchOutcome → Option String
  | .ok _ => none
  | .httpErr status text => some ("HTTP " ++ toString status ++ ": " ++ text)
  | .netErr m => some m

/-- True when the fetch outcome makes the iteration fail. -/
def isFailOutcome (o : FetchOutcome) : Bool := (fetchErrMsg o).isSome

/-- The successful result of callOptimalAI. -/
structure CallResult where
  response : String
  modelUsed : String
  attemptCount : Nat
deriving Repr, DecidableEq

/-- The modelUsed string reported for a backend key. -/
def modelUsedFor (modelKey : String) : String :=
  match AI_MODELS.lookup modelKey with
  | some m => m.name ++ " (" ++ m.endpoint ++ ")"
  | none => ""

/-- The loop body of callOptimalAI over the remaining priority list.  fetchIdx indexes
    the fetch oracle; attemptCount counts loop iterations (a key missing from AI_MODELS
    is counted but issues no fetch).  Rate-limit/transient errors and all other errors
    alike fall through to the next model; only full exhaustion surfaces an error. -/
def tryModels (env : Nat → FetchOutcome) :
    List String → Nat → Nat → Option String → Except String CallResult
  | [], _, attemptCount, lastError =>
      .error ("All AI models failed after " ++ toString attemptCount ++
        " attempts. Last error: " ++ lastError.getD "Unknown error")
  | modelKey :: rest, fetchIdx, attemptCount, lastError =>
      match AI_MODELS.lookup modelKey with
      | none => tryModels env rest fetchIdx (attemptCount + 1) lastError
      | some model =>
          match env fetchIdx with
          | .ok data =>
              .ok ⟨data, model.name ++ " (" ++ model.endpoint ++ ")", attemptCount + 1⟩
          | outcome =>
              tryModels env rest (fetchIdx + 1) (attemptCount + 1) (fetchErrMsg outcome)

/-- callOptimalAI: walk the task type's priority list strictly in order, returning the
    first successful backend's payload.  The fetch oracle stands for the network;
    request tuning (temperature, token ceiling clamping, top_p) does not influence
    control flow and is not consulted here. -/
def callOptimalAI (env : Nat → FetchOutcome) (taskType : String) :
    Except String CallResult :=
  tryModels env (priorityFor taskType) 0 0 none

/-- Every key of a priority list is configured in AI_MODELS. -/
def allKeysFound (keys : List String) : Bool :=
  keys.all fun k => (AI_MODELS.lookup k).isSome

/-- The lastError value after walking all the keys (the incoming one when there were
    no keys left to try). -/
def lastErrAfter (env : Nat → FetchOutcome) (keys : List String) (fetchIdx : Nat)
    (lastError : Option String) : Option String :=
  match keys with
  | [] => lastError
  | _ :: _ => fetchErrMsg (env (fetchIdx + (keys.length - 1)))

/-! ## Game scores (src/controllers/gameController.ts, saveGameHighScore) -/

/-- A row of the game_scores table. -/
structure ScoreRow where
  user_id : String
  score : Int
deriving Repr, DecidableEq

/-- The HTTP outcome of saveGameHighScore (the happy-path branches; a 500 would only
    arise from a throwing query, which this model's store never does). -/
inductive SaveScoreResp where
  | badRequest (error : String)
  | okSaved (message : String) (score : Int)
deriving Repr, DecidableEq

/-- saveGameHighScore: validate the submitted score, then update the stored row only
    when the new score is strictly greater, insert when no row exists, and report
    success echoing the submitted score.  `none` models a non-number (or NaN) body. -/
def saveGameHighScore (userId : String) (score : Option Int) (db : List ScoreRow) :
    List ScoreRow × SaveScoreResp :=
  match score with
  | none => (db, .badRequest "Score must be a valid positive number")
  | some s =>
      if s < 0 then (db, .badRequest "Score must be a valid positive number")
      else
        match db.find? (fun r => r.user_id == userId) with
        | some existing =>
            if s > existing.score then
              (db.map (fun r => if r.user_id == userId then { r with score := s } else r),
               .okSaved "High score saved successfully" s)
            else (db, .okSaved "High score saved successfully" s)
        | none =>
            (db ++ [⟨userId, s⟩], .okSaved "High score saved successfully" s)

/-- The score currently stored for a user. -/
def storedScore (userId : String) (db : List ScoreRow) : Option Int :=
  (db.find? (fun r => r.user_id == userId)).map (fun r => r.score)

/-! ## Structured extraction (src/controllers/aiController.ts, extractTasksFromVoice) -/

/-- JSON values (the shape JSON.parse produces). -/
inductive Json where
  | null
  | bool (b : Bool)
  | num (n : Int)
  | str (s : String)
  | arr (elems : List Json)
  | obj (fields : List (String × Json))

/-- The open-brace character. -/
def lbrace : Char := Char.ofNat 123

/-- The close-brace character. -/
def rbrace : Char := Char.ofNat 125

/-- JSON insignificant whitespace. -/
def jsonWs (c : Char) : Bool := c == ' ' || c == '\n' || c == '\t' || c == '\r'

/-- Skip insignificant whitespace. -/
def skipWs : List Char → List Char
  | [] => []
  | c :: cs => if jsonWs c then skipWs cs else c :: cs

/-- Parse the body of a JSON string literal (after the opening quote), with the
    common escapes; exotic escapes are outside this model of the builtin parser. -/
def parseStrChars (acc : List Char) : List Char → Option (String × List Char)
  | [] => none
  | c :: cs =>
    if c == '"' then some (String.mk acc.reverse, cs)
    else if c == '\\' then
      match cs with
      | [] => none
      | e :: cs2 =>
        if e == '"' then parseStrChars ('"' :: acc) cs2
        else if e == '\\' then parseStrChars ('\\' :: acc) cs2
        else if e == '/' then parseStrChars ('/' :: acc) cs2
        else if e == 'n' then parseStrChars ('\n' :: acc) cs2
        else if e == 't' then parseStrChars ('\t' :: acc) cs2
        else if e == 'r' then parseStrChars ('\r' :: acc) cs2
        else none
    else parseStrChars (c :: acc) cs

/-- Split a leading run of decimal digits. -/
def spanDigits : List Char → (List Char × List Char)
  | [] => ([], [])
  | c :: cs =>
    if c.isDigit then
      let p := spanDigits cs
      (c :: p.1, p.2)
    else ([], c :: cs)

/-- Numeric value of a digit run. -/
def digitsToNat (ds : List Char) : Nat :=
  ds.foldl (fun a c => a * 10 + (c.toNat - 48)) 0

/-- Parse a JSON integer literal (fractional and exponent literals are outside this
    model; the replies the claims exercise carry integers). -/
def parseNumber (cs : List Char) : Option (Json × List Char) :=
  let p : Bool × List Char :=
    match cs with
    | '-' :: t => (true, t)
    | _ => (false, cs)
  match spanDigits p.2 with
  | ([], _) => none
  | (ds, rest) =>
    if ds.length > 1 && ds.headD '0' == '0' then none
    else
      match rest with
      | '.' :: _ => none
      | 'e' :: _ => none
      | 'E' :: _ => none
      | _ =>
        let n : Int := Int.ofNat (digitsToNat ds)
        some (.num (if p.1 then -n else n), rest)

mutual

/-- Parse one JSON value (fuelled recursive descent). -/
def parseVal : Nat → List Char → Option (Json × List Char)
  | 0, _ => none
  | Nat.succ fuel, cs =>
    match skipWs cs with
    | [] => none
    | c :: rest =>
      if c == '"' then
        match parseStrChars [] rest with
        | some (s, r) => some (.str s, r)
        | none => none
      else if c == '[' then
        match parseArrItems fuel rest with
        | some (vs, r) => some (.arr vs, r)
        | none => none
      else if c == lbrace then
        match parseObjItems fuel rest with
        | some (fs, r) => some (.obj fs, r)
        | none => none
      else if c == 'n' then
        match rest with
        | 'u' :: 'l' :: 'l' :: r => some (.null, r)
        | _ => none
      else if c == 't' then
        match rest with
        | 'r' :: 'u' :: 'e' :: r => some (.bool true, r)
        | _ => none
      else if c == 'f' then
        match rest with
        | 'a' :: 'l' :: 's' :: 'e' :: r => some (.bool false, r)
        | _ => none
      else if c == '-' || c.isDigit then parseNumber (c :: rest)
      else none

/-- Parse the items of an array (position just after '['). -/
def parseArrItems : Nat → List Char → Option (List Json × List Char)
  | 0, _ => none
  | Nat.succ fuel, cs =>
    match skipWs cs with
    | [] => none
    | c :: rest =>
      if c == ']' then some ([], rest)
      else
        match parseVal fuel (c :: rest) with
        | none => none
        | some (v, cs2) =>
          match parseArrMore fuel cs2 with
          | some (vs, r) => some (v :: vs, r)
          | none => none

/-- Parse the continuation of an array after an item: ',' item ... or ']'. -/
def parseArrMore : Nat → List Char → Option (List Json × List Char)
  | 0, _ => none
  | Nat.succ fuel, cs =>
    match skipWs cs with
    | [] => none
    | c :: rest =>
      if c == ']' then some ([], rest)
      else if c == ',' then
        match parseVal fuel rest with
        | none => none
        | some (v, cs2) =>
          match parseArrMore fuel cs2 with
          | some (vs, r) => some (v :: vs, r)
          | none => none
      else none

/-- Parse the fields of an object (position just after the open brace). -/
def parseObjItems : Nat → List Char → Option (List (String × Json) × List Char)
  | 0, _ => none
  | Nat.succ fuel, cs =>
    match skipWs cs with
    | [] => none
    | c :: rest =>
      if c == rbrace then some ([], rest)
      else if c == '"' then
        match parseStrChars [] rest with
        | none => none
        | some (k, cs2) =>
          match skipWs cs2 with
          | ':' :: cs3 =>
            match parseVal fuel cs3 with
            | none => none
            | some (v, cs4) =>
              match parseObjMore fuel cs4 with
              | some (fs, r) => some ((k, v) :: fs, r)
              | none => none
          | _ => none
      else none

/-- Parse the continuation of an object after a field: ',' field ... or close brace. -/
def parseObjMore : Nat → List Char → Option (List (String × Json) × List Char)
  | 0, _ => none
  | Nat.succ fuel, cs =>
    match skipWs cs with
    | [] => none
    | c :: rest =>
      if c == rbrace then some ([], rest)
      else if c == ',' then
        match skipWs rest with
        | '"' :: cs2 =>
          match parseStrChars [] cs2 with
          | none => none
          | some (k, cs3) =>
            match skipWs cs3 with
            | ':' :: cs4 =>
              match parseVal fuel cs4 with
              | none => none
              | some (v, cs5) =>
                match parseObjMore fuel cs5 with
                | some (fs, r) => some ((k, v) :: fs, r)
                | none => none
            | _ => none
        | _ => none
      else none

end

/-- JSON.parse (modelled for the subset above): the whole string must be consumed. -/
def jsonParse (s : String) : Option Json :=
  match parseVal (2 * s.length + 2) s.toList with
  | some (v, rest) => if (skipWs rest).isEmpty then some v else none
  | none => none

/-- Index of the last occurrence of a character. -/
def lastIdxOf (cs : List Char) (c : Char) : Option Nat :=
  match cs.reverse.findIdx? (· == c) with
  | some k => some (cs.length - 1 - k)
  | none => none

/-- aiResponse.match of the pattern open-bracket [\s\S]* close-bracket: the quantifier
    is greedy, so the match runs from the first '[' of the string to the last ']' of
    the string, provided that ']' comes after the '['; otherwise there is no match. -/
def matchBracketSpan (s : String) : Option String :=
  let cs := s.toList
  match cs.findIdx? (· == '['), lastIdxOf cs ']' with
  | some i, some j =>
      if i < j then some (String.mk ((cs.drop i).take (j - i + 1))) else none
  | _, _ => none

/-- The primary structured extraction of extractTasksFromVoice: JSON.parse applied to
    the regex match (a failure here sends the controller to the repair call). -/
def primaryExtract (aiResponse : String) : Option Json :=
  (matchBracketSpan aiResponse).bind jsonParse

/-- Scan for the end of the balanced bracket span that starts the list. -/
def balancedPrefixLen : List Char → Nat → Nat → Option Nat
  | [], _, _ => none
  | c :: cs, depth, len =>
    if c == '[' then balancedPrefixLen cs (depth + 1) (len + 1)
    else if c == ']' then
      if depth == 1 then some (len + 1) else balancedPrefixLen cs (depth - 1) (len + 1)
    else balancedPrefixLen cs depth (len + 1)

/-- Modelled from the spec: "locate the first balanced top-level JSON array substring"
    (bracket-matched).  Used to compare the spec's description against the regex the
    code actually uses; bracket characters inside string literals are not special-cased
    (the comparison inputs used here contain none). -/
def firstBalancedArraySpan (s : String) : Option String :=
  let cs := s.toList
  match cs.findIdx? (· == '[') with
  | none => none
  | some i =>
      (balancedPrefixLen (cs.drop i) 0 0).map fun n => String.mk ((cs.drop i).take n)

/-! ## Voice task cleanup (extractTasksFromVoice) and parseTimeString -/

/-- JS whitespace as consumed by the \s class (common subset). -/
def jsWsChar (c : Char) : Bool := c == ' ' || c == '\t' || c == '\n' || c == '\r'

/-- A raw element of the JSON array parsed from the model reply (loose fields). -/
structure RawTask where
  title : Option String := none
  duration : Option Int := none
  importance : Option String := none
  scheduledTime : Option String := none
  notes : Option String := none
deriving Repr, DecidableEq

/-- A cleaned task as returned by extractTasksFromVoice. -/
structure CleanTask where
  title : String
  duration : Int
  importance : String
  scheduledTime : Option String
  notes : Option String
deriving Repr, DecidableEq

/-- The HH:MM validation regex ^([0-1]?[0-9]|2[0-3]):([0-5][0-9])$. -/
def timeRegexTest (s : String) : Bool :=
  match s.toList with
  | [h, c, m1, m2] =>
      c == ':' && h.isDigit && ('0' ≤ m1 && m1 ≤ '5') && m2.isDigit
  | [h1, h2, c, m1, m2] =>
      c == ':' &&
      (((h1 == '0' || h1 == '1') && h2.isDigit) ||
        (h1 == '2' && ('0' ≤ h2 && h2 ≤ '3'))) &&
      ('0' ≤ m1 && m1 ≤ '5') && m2.isDigit
  | _ => false

/-- padStart(2, '0') of a decimal number. -/
def pad2 (n : Nat) : String :=
  if n < 10 then "0" ++ toString n else toString n

/-- The am/pm branch of parseTimeString: ^(\d\x7b1,2\x7d)(?::(\d\x7b2\x7d))?\s*(am|pm)$
    on the lowered input (no range check on the hours, exactly as in the source). -/
def parseAmPmForm (cs : List Char) : Option String :=
  let p1 := spanDigits cs
  if p1.1.length == 0 || p1.1.length > 2 then none
  else
    let step2 : Option (Nat × List Char) :=
      match p1.2 with
      | ':' :: t =>
          let p2 := spanDigits t
          if p2.1.length == 2 then some (digitsToNat p2.1, p2.2) else none
      | _ => some (0, p1.2)
    match step2 with
    | none => none
    | some (minutes, r2) =>
        let r3 := r2.dropWhile jsWsChar
        let hours := digitsToNat p1.1
        match r3 with
        | ['a', 'm'] =>
            let h := if hours == 12 then 0 else hours
            some (pad2 h ++ ":" ++ pad2 minutes)
        | ['p', 'm'] =>
            let h := if hours != 12 then hours + 12 else hours
            some (pad2 h ++ ":" ++ pad2 minutes)
        | _ => none

/-- The 24-hour branch of parseTimeString: ^(\d\x7b1,2\x7d):(\d\x7b2\x7d)$ plus the
    range check on hours and minutes (falling through when out of range). -/
def parse24Form (cs : List Char) : Option String :=
  let p1 := spanDigits cs
  if p1.1.length == 0 || p1.1.length > 2 then none
  else
    match p1.2 with
    | ':' :: t =>
        let p2 := spanDigits t
        if p2.1.length == 2 && p2.2.isEmpty then
          let hours := digitsToNat p1.1
          let minutes := digitsToNat p2.1
          if hours ≤ 23 && minutes ≤ 59 then some (pad2 hours ++ ":" ++ pad2 minutes)
          else none
        else none
    | _ => none

/-- The bare-hour branch of parseTimeString: ^(\d\x7b1,2\x7d)$ with hours 0..23. -/
def parseHourOnly (cs : List Char) : Option String :=
  let p1 := spanDigits cs
  if p1.1.length == 0 || p1.1.length > 2 || !p1.2.isEmpty then none
  else
    let hours := digitsToNat p1.1
    if hours ≤ 23 then some (pad2 hours ++ ":00") else none

/-- parseTimeString from src/utils/ai.ts: lower-case and trim, then try the am/pm
    form, the 24-hour form and the bare hour in that order. -/
def parseTimeString (timeStr : String) : Option String :=
  let cleaned := strTrim (strToLower timeStr)
  match parseAmPmForm cleaned.toList with
  | some r => some r
  | none =>
    match parse24Form cleaned.toList with
    | some r => some r
    | none => parseHourOnly cleaned.toList

/-- The validity filter of extractTasksFromVoice: truthy string title with non-blank
    trim, truthy numeric duration strictly positive. -/
def voiceTaskValid (t : RawTask) : Bool :=
  strTruthy t.title && ((strTrim (t.title.getD "")).length > 0) &&
  intTruthy t.duration && (0 < t.duration.getD 0)

/-- The cleanup map of extractTasksFromVoice: trim the title, clamp the duration to
    [5, 480], normalize importance to low/medium/high, validate or convert
    scheduledTime, trim notes. -/
def cleanupVoiceTask (t : RawTask) : CleanTask :=
  let scheduledTime : Option String :=
    if strTruthy t.scheduledTime then
      let timeStr := strTrim (t.scheduledTime.getD "")
      if timeRegexTest timeStr then some timeStr
      else parseTimeString timeStr
    else none
  { title := strTrim (t.title.getD "")
    duration := min (max (t.duration.getD 0) 5) 480
    importance :=
      if t.importance == some "low" || t.importance == some "medium" ||
         t.importance == some "high" then t.importance.getD "medium" else "medium"
    scheduledTime := scheduledTime
    notes := if strTruthy t.notes then some (strTrim (t.notes.getD "")) else none }

/-- validTasks = extractedTasks.filter(isValid).map(cleanup). -/
def processExtractedTasks (extractedTasks : List RawTask) : List CleanTask :=
  (extractedTasks.filter voiceTaskValid).map cleanupVoiceTask

/-! ## Response Sanitizer (src/utils/ai.ts, cleanAIResponse)

Each regex replace of the source is modelled by a dedicated scanner over the
character list; all scanners walk the text left to right exactly as a global
regex replace does.  -/

/-- Case-insensitive prefix test. -/
def ciIsPrefix : List Char → List Char → Bool
  | [], _ => true
  | _ :: _, [] => false
  | p :: ps, c :: cs => (p.toLower == c.toLower) && ciIsPrefix ps cs

/-- Index of the first case-insensitive occurrence of pat. -/
def ciFindIdx (pat : List Char) : List Char → Option Nat
  | [] => if pat.isEmpty then some 0 else none
  | c :: cs =>
    if ciIsPrefix pat (c :: cs) then some 0
    else (ciFindIdx pat cs).map (· + 1)

/-- Index of the first exact occurrence of pat. -/
def findIdxPat (pat : List Char) : List Char → Option Nat
  | [] => if pat.isEmpty then some 0 else none
  | c :: cs =>
    if pat.isPrefixOf (c :: cs) then some 0
    else (findIdxPat pat cs).map (· + 1)

/-- Global replace of an open-tag .. close-tag block pattern (lazy body, /gi flags)
    with the empty string. -/
def stripTagBlocksGo (openTag closeTag : List Char) : Nat → List Char → List Char
  | 0, cs => cs
  | Nat.succ fuel, cs =>
    match cs with
    | [] => []
    | c :: rest =>
      if ciIsPrefix openTag cs then
        let after := cs.drop openTag.length
        match ciFindIdx closeTag after with
        | some k =>
            stripTagBlocksGo openTag closeTag fuel (after.drop (k + closeTag.length))
        | none => c :: stripTagBlocksGo openTag closeTag fuel rest
      else c :: stripTagBlocksGo openTag closeTag fuel rest

/-- Remove all <tag>...</tag> debug blocks (content included). -/
def stripTagBlocks (tag : String) (cs : List Char) : List Char :=
  stripTagBlocksGo ("<" ++ tag ++ ">").toList ("</" ++ tag ++ ">").toList cs.length cs

/-- Global multiline replace of a line-anchored label pattern
    (first letter in either case, then the rest of the label, then a lazy body up to
    the first blank-line separator) with the empty string. -/
def stripLineLabelGo (u l : Char) (labelRest : List Char) :
    Nat → Bool → List Char → List Char
  | 0, _, cs => cs
  | Nat.succ fuel, atStart, cs =>
    match cs with
    | [] => []
    | c :: rest =>
      if atStart && (c == u || c == l) && labelRest.isPrefixOf rest then
        let after := rest.drop labelRest.length
        match findIdxPat ['\n', '\n'] after with
        | some k => stripLineLabelGo u l labelRest fuel true (after.drop (k + 2))
        | none => c :: stripLineLabelGo u l labelRest fuel (c == '\n') rest
      else c :: stripLineLabelGo u l labelRest fuel (c == '\n') rest

/-- Remove standalone Label:...\n\n debugging paragraphs at line starts. -/
def stripLineLabel (u l : Char) (labelRest : String) (cs : List Char) : List Char :=
  stripLineLabelGo u l labelRest.toList cs.length true cs

/-- Distance to the first occurrence of delim with no newline strictly before it
    (the lazy dot of the markdown patterns does not cross lines). -/
def findDelimSameLine (delim : List Char) : List Char → Option Nat
  | [] => none
  | c :: cs =>
    if delim.isPrefixOf (c :: cs) then some 0
    else if c == '\n' then none
    else (findDelimSameLine delim cs).map (· + 1)

/-- Global replace of delim(.*?)delim with the inner text. -/
def stripPairsGo (delim : List Char) : Nat → List Char → List Char
  | 0, cs => cs
  | Nat.succ fuel, cs =>
    match cs with
    | [] => []
    | c :: rest =>
      if delim.isPrefixOf cs then
        let after := cs.drop delim.length
        match findDelimSameLine delim after with
        | some k =>
            (after.take k) ++ stripPairsGo delim fuel (after.drop (k + delim.length))
        | none => c :: stripPairsGo delim fuel rest
      else c :: stripPairsGo delim fuel rest

/-- Strip a markdown emphasis/code delimiter pair, keeping the inner text. -/
def stripPairs (delim : String) (cs : List Char) : List Char :=
  stripPairsGo delim.toList cs.length cs

/-- Global replace of the header pattern (one to six hashes, then greedy whitespace)
    with the empty string. -/
def stripHeaders : Nat → List Char → List Char
  | 0, cs => cs
  | Nat.succ fuel, cs =>
    match cs with
    | [] => []
    | c :: rest =>
      if c == '#' then
        let hashes := (cs.takeWhile (· == '#')).length
        let after := (cs.drop (min hashes 6)).dropWhile jsWsChar
        stripHeaders fuel after
      else c :: stripHeaders fuel rest

/-- Global multiline replace of the bullet-list pattern (leading whitespace, one of
    - * +, trailing whitespace) with a bullet glyph. -/
def bulletizeDash : Nat → Bool → List Char → List Char
  | 0, _, cs => cs
  | Nat.succ fuel, atStart, cs =>
    match cs with
    | [] => []
    | c :: rest =>
      if atStart then
        let ws := cs.takeWhile jsWsChar
        match cs.drop ws.length with
        | b :: afterB =>
          if b == '-' || b == '*' || b == '+' then
            let ws2 := afterB.takeWhile jsWsChar
            let lastC := ws2.getLastD b
            '•' :: ' ' :: bulletizeDash fuel (lastC == '\n') (afterB.drop ws2.length)
          else c :: bulletizeDash fuel (c == '\n') rest
        | [] => c :: bulletizeDash fuel (c == '\n') rest
      else c :: bulletizeDash fuel (c == '\n') rest

/-- Global multiline replace of the numbered-list pattern (leading whitespace, digits,
    a dot, trailing whitespace) with a bullet glyph. -/
def bulletizeNum : Nat → Bool → List Char → List Char
  | 0, _, cs => cs
  | Nat.succ fuel, atStart, cs =>
    match cs with
    | [] => []
    | c :: rest =>
      if atStart then
        let ws := cs.takeWhile jsWsChar
        let afterWs := cs.drop ws.length
        let digs := afterWs.takeWhile Char.isDigit
        match digs, afterWs.drop digs.length with
        | _ :: _, '.' :: afterDot =>
            let ws2 := afterDot.takeWhile jsWsChar
            let lastC := ws2.getLastD '.'
            '•' :: ' ' :: bulletizeNum fuel (lastC == '\n') (afterDot.drop ws2.length)
        | _, _ => c :: bulletizeNum fuel (c == '\n') rest
      else c :: bulletizeNum fuel (c == '\n') rest

/-- Global replace of three-or-more newlines with exactly two. -/
def collapseNewlines : Nat → List Char → List Char
  | 0, cs => cs
  | Nat.succ fuel, cs =>
    match cs with
    | [] => []
    | c :: rest =>
      if c == '\n' then
        let run := (cs.takeWhile (· == '\n')).length
        (if run ≥ 3 then ['\n', '\n'] else cs.take run) ++
          collapseNewlines fuel (cs.drop run)
      else c :: collapseNewlines fuel rest

/-- The leading-or-trailing-whitespace replace (anchored, no multiline flag). -/
def stripEdges (cs : List Char) : List Char :=
  ((cs.dropWhile jsWsChar).reverse.dropWhile jsWsChar).reverse

/-- The cleanup pipeline of cleanAIResponse, in source order: trim, tag blocks,
    line-label paragraphs, markdown emphasis/code, headers, list bullets, newline
    collapsing, edge whitespace. -/
def cleanCore (raw : String) : String :=
  let cs0 := (strTrim raw).toList
  let cs1 := stripTagBlocks "think" cs0
  let cs2 := stripTagBlocks "debug" cs1
  let cs3 := stripTagBlocks "reasoning" cs2
  let cs4 := stripTagBlocks "analysis" cs3
  let cs5 := stripLineLabel 'T' 't' "hinking:" cs4
  let cs6 := stripLineLabel 'D' 'd' "ebug:" cs5
  let cs7 := stripLineLabel 'A' 'a' "nalysis:" cs6
  let cs8 := stripPairs "**" cs7
  let cs9 := stripPairs "*" cs8
  let cs10 := stripPairs "__" cs9
  let cs11 := stripPairs (String.mk [Char.ofNat 96]) cs10
  let cs12 := stripHeaders cs11.length cs11
  let cs13 := bulletizeDash cs12.length true cs12
  let cs14 := bulletizeNum cs13.length true cs13
  let cs15 := collapseNewlines cs14.length cs14
  String.mk (stripEdges cs15)

/-- Sentence punctuation of the truncation split. -/
def isSentencePunct (c : Char) : Bool := c == '.' || c == '!' || c == '?'

/-- cleaned.split on runs of sentence punctuation. -/
def splitSentencesGo : Nat → List Char → List (List Char)
  | 0, cs => [cs]
  | Nat.succ fuel, cs =>
    let first := cs.takeWhile fun c => !(isSentencePunct c)
    match cs.drop first.length with
    | [] => [first]
    | rest => first :: splitSentencesGo fuel (rest.dropWhile isSentencePunct)

/-- cleaned.split(/[.!?]+/). -/
def splitSentences (cs : List Char) : List (List Char) :=
  splitSentencesGo (cs.length + 1) cs

/-- The accumulation loop of the truncation branch: stop before the sentence that
    would push the accumulated text past 800 characters. -/
def truncateLoop : List (List Char) → String → String
  | [], result => result
  | s :: rest, result =>
    if result.length + s.length > 800 then result
    else truncateLoop rest (result ++ strTrim (String.mk s) ++ ". ")

/-- The length > 1000 truncation branch of cleanAIResponse. -/
def truncateAtSentences (cleaned : String) : String :=
  strTrim (truncateLoop (splitSentences cleaned.toList) "")

/-- The canned clarifying-question fallback string. -/
def fallbackMsg : String :=
  "I\x27d be happy to help with your question! Could you provide more details so I can give you better advice?"

/-- cleanAIResponse from src/utils/ai.ts; `none` models a missing or non-string
    argument (the typeof guard). -/
def cleanAIResponse (rawResponse : Option String) : String :=
  match rawResponse with
  | none => fallbackMsg
  | some raw =>
    if raw == "" then fallbackMsg
    else
      let cleaned := cleanCore raw
      if cleaned == "" || cleaned.length < 10 then fallbackMsg
      else if cleaned.length > 1000 then truncateAtSentences cleaned
      else cleaned

/-! ## Concrete instances used by the claim theorems -/

/-- A canonical well-formed task id. -/
def uuid0 : String := "123e4567-e89b-12d3-a456-426614174000"

/-- The model reply of the spec's Structured Extractor example. -/
def exampleReply : String :=
  "Sure! Here are your tasks: [\x7b\"title\":\"A\",\"duration\":10\x7d] Hope that helps!"

/-- A reply with two separate bracketed spans surrounded by prose. -/
def twoArrayReply : String := "x [1] y [2] z"

/-- A 1001-character reply with no sentence punctuation. -/
def bigA : String := String.mk (List.replicate 1001 'a')

/-- The existing task of the spec's end-to-end delete-rescue scenario. -/
def wRow : DBTask :=
  { id := uuid0
    user_id := "u1"
    title := "Workout"
    duration_minutes := 30
    importance := "medium"
    status := "todo" }

/-- The proposed delete operation of that scenario: invalid id, matching title. -/
def opB : Op := { id := some "not-a-uuid", action := some "delete", title := some "Workout" }

/-- The existing task of the spec's field-merge example (with a scheduled time). -/
def t0 : DBTask :=
  { id := uuid0
    user_id := "u1"
    title := "Draft report"
    duration_minutes := 60
    importance := "high"
    status := "todo"
    scheduled_time := some "09:00" }

/-- The modify operation of that example: only id, action and status are supplied. -/
def opC2 : Op := { id := some uuid0, action := some "modify", status := some "done" }

/-- A create-shaped operation with a duration outside [5, 480]. -/
def opD1000 : Op := { title := some "Deep work", duration := some 1000 }

/-- An operation carrying an id but no action field. -/
def opU1 : Op := { id := some "task-1", title := some "T" }

/-- An operation with an action matching none of the recognized discriminators. -/
def opU2 : Op := { action := some "reschedule", title := some "T", duration := some 10 }

/-- A fetch oracle whose first two calls return HTTP 429 and whose third succeeds. -/
def env429 (i : Nat) : FetchOutcome :=
  if i < 2 then .httpErr 429 "rate limited" else .ok "payload"

/-! ## Helper lemmas -/

/-- Updating the score of the rows of one user does not change row ownership. -/
lemma scoreUpdate_user (uid : String) (s : Int) (r : ScoreRow) :
    ((if r.user_id == uid then { r with score := s } else r) : ScoreRow).user_id =
      r.user_id := by
  by_cases h : r.user_id == uid <;> simp [h]

/-- Each pass step over one operation is one fold iteration. -/
lemma runPass_cons (stepFn : Op → AlignState → AlignState) (o : Op) (t : List Op)
    (st : AlignState) : runPass stepFn (o :: t) st = runPass stepFn t (stepFn o st) := rfl

/-- The create pass records at least one entry for every operation it processes. -/
lemma totalEntries_processCreate (env : AlignEnv) (uid : String) (ex : List DBTask)
    (task : Op) (st : AlignState) :
    totalEntries st + 1 ≤ totalEntries (processCreate env uid ex task st) := by
  unfold processCreate totalEntries
  repeat' split
  all_goals simp [List.length_append]
  all_goals omega

/-- The delete pass records at least one entry for every operation it processes. -/
lemma totalEntries_processDelete (env : AlignEnv) (uid : String) (ex : List DBTask)
    (task : Op) (st : AlignState) :
    totalEntries st + 1 ≤ totalEntries (processDelete env uid ex task st) := by
  unfold processDelete totalEntries
  repeat' split
  all_goals simp [List.length_append]
  all_goals (try (repeat' split))
  all_goals (try simp [List.length_append])
  all_goals omega

/-- The modify pass records at least one entry for every operation it processes. -/
lemma totalEntries_processModify (env : AlignEnv) (uid : String) (ex : List DBTask)
    (task : Op) (st : AlignState) :
    totalEntries st + 1 ≤ totalEntries (processModify env uid ex task st) := by
  unfold processModify totalEntries
  repeat' split
  all_goals simp [List.length_append]
  all_goals (try (repeat' split))
  all_goals (try simp [List.length_append])
  all_goals omega

/-- A pass whose step always records an entry accounts for every processed operation. -/
lemma totalEntries_runPass (stepFn : Op → AlignState → AlignState)
    (hstep : ∀ o st, totalEntries st + 1 ≤ totalEntries (stepFn o st)) :
    ∀ (ops : List Op) (st : AlignState),
      totalEntries st + ops.length ≤ totalEntries (runPass stepFn ops st) := by
  intro ops
  induction ops with
  | nil => intro st; simp [runPass]
  | cons o t ih =>
      intro st
      have h1 := hstep o st
      have h2 := ih (stepFn o st)
      simp only [runPass_cons, List.length_cons]
      omega

/-- Union bound: the classified operations are covered by the three shape filters. -/
lemma classifiedCount_le (ops : List Op) :
    classifiedCount ops ≤
      (ops.filter isCreateShaped).length + (ops.filter isDeleteShaped).length +
      (ops.filter isModifyShaped).length := by
  induction ops with
  | nil => simp [classifiedCount]
  | cons o t ih =>
      simp only [classifiedCount, List.filter_cons] at ih ⊢
      cases h1 : isCreateShaped o <;> cases h2 : isDeleteShaped o <;>
        cases h3 : isModifyShaped o <;>
        simp [isClassified, h1, h2, h3] <;> omega

/-- Every classified operation of a batch is accounted for by at least one record of
    the accumulated result, whatever the persistence oracle does. -/
lemma align_total_ge (env : AlignEnv) (uid : String) (ops : List Op)
    (ex : List DBTask) (plan : Option String) (db : List DBTask) (n : Nat) :
    classifiedCount ops ≤ totalEntries (alignTasksWithPlan env uid ops ex plan db n) := by
  unfold alignTasksWithPlan
  dsimp only
  have hc := totalEntries_runPass _ (totalEntries_processCreate env uid ex)
    (ops.filter isCreateShaped) { db := db, nextId := n, qIdx := 0 }
  have hd := totalEntries_runPass _ (totalEntries_processDelete env uid ex)
    (ops.filter isDeleteShaped)
    (runPass (processCreate env uid ex) (ops.filter isCreateShaped)
      { db := db, nextId := n, qIdx := 0 })
  have hm := totalEntries_runPass _ (totalEntries_processModify env uid ex)
    (ops.filter isModifyShaped)
    (runPass (processDelete env uid ex) (ops.filter isDeleteShaped)
      (runPass (processCreate env uid ex) (ops.filter isCreateShaped)
        { db := db, nextId := n, qIdx := 0 }))
  have h0 : totalEntries { db := db, nextId := n, qIdx := 0 } = 0 := rfl
  have hcl := classifiedCount_le ops
  omega

/-- Under the always-throwing oracle the create pass leaves the store and the success
    lists untouched and records exactly one conflict. -/
lemma processCreate_allFail (uid : String) (ex : List DBTask) (task : Op)
    (st : AlignState) :
    (processCreate allFail uid ex task st).db = st.db ∧
    (processCreate allFail uid ex task st).insertedTasks = st.insertedTasks ∧
    (processCreate allFail uid ex task st).modifiedTasks = st.modifiedTasks ∧
    (processCreate allFail uid ex task st).deletedTasks = st.deletedTasks ∧
    (processCreate allFail uid ex task st).conflicts.length = st.conflicts.length + 1 := by
  unfold processCreate
  repeat' split
  all_goals simp_all [allFail, List.length_append]

/-- Under the always-throwing oracle the delete pass leaves the store and the success
    lists untouched and records exactly one conflict. -/
lemma processDelete_allFail (uid : String) (ex : List DBTask) (task : Op)
    (st : AlignState) :
    (processDelete allFail uid ex task st).db = st.db ∧
    (processDelete allFail uid ex task st).insertedTasks = st.insertedTasks ∧
    (processDelete allFail uid ex task st).modifiedTasks = st.modifiedTasks ∧
    (processDelete allFail uid ex task st).deletedTasks = st.deletedTasks ∧
    (processDelete allFail uid ex task st).conflicts.length = st.conflicts.length + 1 := by
  unfold processDelete
  repeat' split
  all_goals simp_all [allFail, List.length_append]

/-- Under the always-throwing oracle the modify pass leaves the store and the success
    lists untouched and records exactly one conflict. -/
lemma processModify_allFail (uid : String) (ex : List DBTask) (task : Op)
    (st : AlignState) :
    (processModify allFail uid ex task st).db = st.db ∧
    (processModify allFail uid ex task st).insertedTasks = st.insertedTasks ∧
    (processModify allFail uid ex task st).modifiedTasks = st.modifiedTasks ∧
    (processModify allFail uid ex task st).deletedTasks = st.deletedTasks ∧
    (processModify allFail uid ex task st).conflicts.length = st.conflicts.length + 1 := by
  unfold processModify
  repeat' split
  all_goals simp_all [allFail, List.length_append]

/-- A pass whose step satisfies the conflict-only invariant keeps it over a batch. -/
lemma runPass_conflictOnly (stepFn : Op → AlignState → AlignState)
    (hstep : ∀ o st, (stepFn o st).db = st.db ∧
      (stepFn o st).insertedTasks = st.insertedTasks ∧
      (stepFn o st).modifiedTasks = st.modifiedTasks ∧
      (stepFn o st).deletedTasks = st.deletedTasks ∧
      (stepFn o st).conflicts.length = st.conflicts.length + 1) :
    ∀ (ops : List Op) (st : AlignState),
      (runPass stepFn ops st).db = st.db ∧
      (runPass stepFn ops st).insertedTasks = st.insertedTasks ∧
      (runPass stepFn ops st).modifiedTasks = st.modifiedTasks ∧
      (runPass stepFn ops st).deletedTasks = st.deletedTasks ∧
      (runPass stepFn ops st).conflicts.length = st.conflicts.length + ops.length := by
  intro ops
  induction ops with
  | nil => intro st; simp [runPass]
  | cons o t ih =>
      intro st
      obtain ⟨d1, i1, m1, de1, c1⟩ := hstep o st
      obtain ⟨d2, i2, m2, de2, c2⟩ := ih (stepFn o st)
      simp only [runPass_cons, List.length_cons]
      exact ⟨by rw [d2, d1], by rw [i2, i1], by rw [m2, m1], by rw [de2, de1],
        by rw [c2, c1]; omega⟩

/-- A delete-shaped operation is neither create- nor modify-shaped. -/
lemma delete_shape_exclusive (o : Op) (h : isDeleteShaped o = true) :
    isCreateShaped o = false ∧ isModifyShaped o = false := by
  unfold isDeleteShaped at h
  simp only [Bool.or_eq_true, beq_iff_eq] at h
  rcases h with (h | h) | h <;>
    simp [isCreateShaped, isModifyShaped, strFalsy, strTruthy, h]

/-- A modify-shaped operation is neither create- nor delete-shaped. -/
lemma modify_shape_exclusive (o : Op) (h : isModifyShaped o = true) :
    isCreateShaped o = false ∧ isDeleteShaped o = false := by
  unfold isModifyShaped at h
  simp only [Bool.or_eq_true, beq_iff_eq] at h
  rcases h with (h | h) | h <;>
    simp [isCreateShaped, isDeleteShaped, strFalsy, strTruthy, h]

/-- A well-formed uuid is in particular a non-empty (truthy) string. -/
lemma uuid_truthy (s : String) (h : isValidUUID (some s) = true) : (s == "") = false := by
  by_cases hs : (s == "") = true
  · simp [isValidUUID, hs] at h
  · simpa using hs

/-- The JS fallback a || (a || b) collapses to a || b. -/
lemma strOrS_absorb (a : Option String) (b : String) :
    strOrS a (strOrS a b) = strOrS a b := by
  cases a with
  | none => rfl
  | some s => by_cases h : (s == "") = true <;> simp [strOrS, h]

/-- A shape filter is absorbed by the classified filter. -/
lemma filter_absorb (p : Op → Bool) (himp : ∀ o, p o = true → isClassified o = true)
    (ops : List Op) : (ops.filter isClassified).filter p = ops.filter p := by
  induction ops with
  | nil => rfl
  | cons o t ih =>
      cases hp : p o with
      | true =>
          have hc := himp o hp
          simp [List.filter_cons, hc, hp, ih]
      | false =>
          cases hc : isClassified o <;> simp [List.filter_cons, hc, hp, ih]

/-- If the first k fetches fail and the (k+1)-th succeeds, the walk returns the
    (k+1)-th backend's payload with the attempt count advanced by k+1. -/
lemma tryModels_ok (env : Nat → FetchOutcome) :
    ∀ (keys : List String) (fetchIdx attemptCount : Nat) (lastError : Option String)
      (k : Nat) (data : String),
      allKeysFound keys = true →
      (∀ i, i < k → isFailOutcome (env (fetchIdx + i)) = true) →
      env (fetchIdx + k) = .ok data →
      k < keys.length →
      tryModels env keys fetchIdx attemptCount lastError =
        .ok ⟨data, modelUsedFor (keys.getD k ""), attemptCount + k + 1⟩ := by
  intro keys
  induction keys with
  | nil =>
      intro _ _ _ k _ _ _ _ hk
      simp at hk
  | cons key rest ih =>
      intro fetchIdx attemptCount lastError k data hfound hfail hok hk
      simp only [allKeysFound, List.all_cons, Bool.and_eq_true] at hfound
      obtain ⟨hk1, hk2⟩ := hfound
      obtain ⟨m, hm⟩ := Option.isSome_iff_exists.mp hk1
      cases k with
      | zero =>
          have hok' : env fetchIdx = .ok data := by simpa using hok
          simp [tryModels, hm, hok', modelUsedFor]
      | succ k' =>
          have hf0 := hfail 0 (Nat.succ_pos k')
          cases henv : env fetchIdx with
          | ok d =>
              rw [show fetchIdx + 0 = fetchIdx from rfl, henv] at hf0
              simp [isFailOutcome, fetchErrMsg] at hf0
          | httpErr s t =>
              have hstep : tryModels env (key :: rest) fetchIdx attemptCount lastError =
                  tryModels env rest (fetchIdx + 1) (attemptCount + 1)
                    (fetchErrMsg (.httpErr s t)) := by
                simp [tryModels, hm, henv]
              have hfail' : ∀ i, i < k' → isFailOutcome (env (fetchIdx + 1 + i)) = true :=
                fun i hi => by
                  have := hfail (i + 1) (by omega)
                  simpa [show fetchIdx + (i + 1) = fetchIdx + 1 + i from by omega] using this
              have hok' : env (fetchIdx + 1 + k') = .ok data := by
                rw [show fetchIdx + 1 + k' = fetchIdx + (k' + 1) from by omega]
                exact hok
              rw [hstep, ih (fetchIdx + 1) (attemptCount + 1) _ k' data
                (by simpa [allKeysFound] using hk2) hfail' hok' (by simpa using hk)]
              rw [show attemptCount + 1 + k' + 1 = attemptCount + (k' + 1) + 1 from by omega]
              rfl
          | netErr msg =>
              have hstep : tryModels env (key :: rest) fetchIdx attemptCount lastError =
                  tryModels env rest (fetchIdx + 1) (attemptCount + 1)
                    (fetchErrMsg (.netErr msg)) := by
                simp [tryModels, hm, henv]
              have hfail' : ∀ i, i < k' → isFailOutcome (env (fetchIdx + 1 + i)) = true :=
                fun i hi => by
                  have := hfail (i + 1) (by omega)
                  simpa [show fetchIdx + (i + 1) = fetchIdx + 1 + i from by omega] using this
              have hok' : env (fetchIdx + 1 + k') = .ok data := by
                rw [show fetchIdx + 1 + k' = fetchIdx + (k' + 1) from by omega]
                exact hok
              rw [hstep, ih (fetchIdx + 1) (attemptCount + 1) _ k' data
                (by simpa [allKeysFound] using hk2) hfail' hok' (by simpa using hk)]
              rw [show attemptCount + 1 + k' + 1 = attemptCount + (k' + 1) + 1 from by omega]
              rfl

/-- Folding one failing iteration into the last-error tracking. -/
lemma lastErrAfter_cons (env : Nat → FetchOutcome) (key : String) (rest : List String)
    (fetchIdx : Nat) (lastError : Option String) :
    lastErrAfter env rest (fetchIdx + 1) (fetchErrMsg (env fetchIdx)) =
      lastErrAfter env (key :: rest) fetchIdx lastError := by
  cases rest with
  | nil => simp [lastErrAfter]
  | cons r rs =>
      simp only [lastErrAfter, List.length_cons]
      rw [show fetchIdx + 1 + (rs.length + 1 - 1) = fetchIdx + (rs.length + 1 + 1 - 1) from by
        omega]

/-- If every fetch fails, the walk exhausts the list and surfaces the error message
    built from the total attempt count and the last underlying error. -/
lemma tryModels_exhaust (env : Nat → FetchOutcome) :
    ∀ (keys : List String) (fetchIdx attemptCount : Nat) (lastError : Option String),
      allKeysFound keys = true →
      (∀ i, i < keys.length → isFailOutcome (env (fetchIdx + i)) = true) →
      tryModels env keys fetchIdx attemptCount lastError =
        .error ("All AI models failed after " ++ toString (attemptCount + keys.length) ++
          " attempts. Last error: " ++
          (lastErrAfter env keys fetchIdx lastError).getD "Unknown error") := by
  intro keys
  induction keys with
  | nil => intro fetchIdx attemptCount lastError _ _; simp [tryModels, lastErrAfter]
  | cons key rest ih =>
      intro fetchIdx attemptCount lastError hfound hfail
      simp only [allKeysFound, List.all_cons, Bool.and_eq_true] at hfound
      obtain ⟨hk1, hk2⟩ := hfound
      obtain ⟨m, hm⟩ := Option.isSome_iff_exists.mp hk1
      have hf0 := hfail 0 (by simp)
      rw [show fetchIdx + 0 = fetchIdx from rfl] at hf0
      have hfail' : ∀ i, i < rest.length → isFailOutcome (env (fetchIdx + 1 + i)) = true :=
        fun i hi => by
          have := hfail (i + 1) (by simpa using Nat.succ_lt_succ hi)
          simpa [show fetchIdx + (i + 1) = fetchIdx + 1 + i from by omega] using this
      have hrec := ih (fetchIdx + 1) (attemptCount + 1) (fetchErrMsg (env fetchIdx))
        (by simpa [allKeysFound] using hk2) hfail'
      cases henv : env fetchIdx with
      | ok d => rw [henv] at hf0; simp [isFailOutcome, fetchErrMsg] at hf0
      | httpErr s t =>
          have hstep : tryModels env (key :: rest) fetchIdx attemptCount lastError =
              tryModels env rest (fetchIdx + 1) (attemptCount + 1)
                (fetchErrMsg (.httpErr s t)) := by
            simp [tryModels, hm, henv]
          rw [hstep, ← henv, hrec, lastErrAfter_cons env key rest fetchIdx lastError]
          simp only [List.length_cons]
          rw [show attemptCount + 1 + rest.length = attemptCount + (rest.length + 1) from by
            omega]
      | netErr msg =>
          have hstep : tryModels env (key :: rest) fetchIdx attemptCount lastError =
              tryModels env rest (fetchIdx + 1) (attemptCount + 1)
                (fetchErrMsg (.netErr msg)) := by
            simp [tryModels, hm, henv]
          rw [hstep, ← henv, hrec, lastErrAfter_cons env key rest fetchIdx lastError]
          simp only [List.length_cons]
          rw [show attemptCount + 1 + rest.length = attemptCount + (rest.length + 1) from by
            omega]

/-- find? of a user's row commutes with the per-user score update map. -/
lemma find?_scoreUpdate (uid : String) (s : Int) (db : List ScoreRow) :
    (db.map fun r => if r.user_id == uid then { r with score := s } else r).find?
        (fun r => r.user_id == uid) =
      (db.find? fun r => r.user_id == uid).map
        (fun r => if r.user_id == uid then { r with score := s } else r) := by
  induction db with
  | nil => simp
  | cons h t ih =>
      cases hc : h.user_id == uid with
      | true =>
          have hc' : h.user_id = uid := by simpa using hc
          simp [List.find?_cons, hc, hc', scoreUpdate_user]
      | false =>
          have hc' : ¬ h.user_id = uid := by simpa using hc
          simpa [List.find?_cons, hc, hc', scoreUpdate_user] using ih

end Call2Code

namespace Call2Code

/-! ## Claim theorems -/

/-- C10: a user's stored game score is monotonically non-decreasing under
    saveGameHighScore: the stored row is updated only when the submitted score is
    strictly greater than the stored one; a lower or equal submission leaves the store
    unchanged while still reporting success and echoing the submitted score; in all
    cases the stored score afterwards is the maximum of the old and submitted scores. -/
theorem c10_game_score_monotone (uid : String) (s : Int) (db : List ScoreRow)
    (row : ScoreRow) (hs : 0 ≤ s)
    (hfind : db.find? (fun r => r.user_id == uid) = some row) :
    (saveGameHighScore uid (some s) db).2 =
        SaveScoreResp.okSaved "High score saved successfully" s ∧
    (s ≤ row.score → (saveGameHighScore uid (some s) db).1 = db) ∧
    (row.score < s →
      (saveGameHighScore uid (some s) db).1 =
        db.map fun r => if r.user_id == uid then { r with score := s } else r) ∧
    storedScore uid (saveGameHighScore uid (some s) db).1 = some (max row.score s) := by
  have hrow := List.find?_some hfind
  have hns : ¬ s < 0 := not_lt.mpr hs
  by_cases hgt : s > row.score
  · have h1 : saveGameHighScore uid (some s) db =
        (db.map fun r => if r.user_id == uid then { r with score := s } else r,
         .okSaved "High score saved successfully" s) := by
      simp [saveGameHighScore, hns, hfind, hgt]
    refine ⟨by rw [h1], fun hle => absurd hgt (not_lt.mpr hle), fun _ => by rw [h1], ?_⟩
    rw [h1]
    have hrow' : row.user_id = uid := by simpa using hrow
    simp only [storedScore, find?_scoreUpdate, hfind, Option.map_some]
    simp [hrow', max_eq_right (le_of_lt hgt)]
  · have h1 : saveGameHighScore uid (some s) db =
        (db, .okSaved "High score saved successfully" s) := by
      simp [saveGameHighScore, hns, hfind, hgt]
    have hle : s ≤ row.score := not_lt.mp hgt
    refine ⟨by rw [h1], fun _ => by rw [h1], fun hlt => absurd hlt (not_lt.mpr hle), ?_⟩
    rw [h1]
    simp [storedScore, hfind, max_eq_left hle]

/-- Witness for C10 at a concrete store: a submission of 50 against a stored 80 reports
    success echoing 50 and leaves the stored score at 80 = max 80 50. -/
theorem c10_game_score_monotone_witness :
    (saveGameHighScore "u" (some 50) [⟨"u", 80⟩]).2 =
        SaveScoreResp.okSaved "High score saved successfully" 50 ∧
    ((50 : Int) ≤ (80 : Int) → (saveGameHighScore "u" (some 50) [⟨"u", 80⟩]).1 =
        [⟨"u", 80⟩]) ∧
    ((80 : Int) < (50 : Int) →
      (saveGameHighScore "u" (some 50) [⟨"u", 80⟩]).1 =
        [(⟨"u", 80⟩ : ScoreRow)].map fun r =>
          if r.user_id == "u" then { r with score := 50 } else r) ∧
    storedScore "u" (saveGameHighScore "u" (some 50) [⟨"u", 80⟩]).1 =
      some (max 80 50) :=
  c10_game_score_monotone "u" 50 [⟨"u", 80⟩] ⟨"u", 80⟩ (by decide) (by decide)

/-- C7 counterexample: on a reply with two bracketed spans, the extraction regex is
    greedy — it matches from the first open bracket to the last close bracket, so the
    parsed candidate is the larger span (which is not valid JSON and fails), not the
    first balanced array, which both exists and parses. -/
theorem c7_counterexample :
    primaryExtract twoArrayReply = none ∧
    matchBracketSpan twoArrayReply = some "[1] y [2]" ∧
    firstBalancedArraySpan twoArrayReply = some "[1]" ∧
    jsonParse "[1]" = some (Json.arr [Json.num 1]) :=
  ⟨rfl, by decide, by decide, rfl⟩

/-- C7 (amended): the primary extraction parses the span from the first open bracket
    to the last close bracket of the reply; on the spec's example, which contains a
    single bracketed span, this coincides with the first balanced array and the
    extraction yields exactly the expected one-task array. -/
theorem c7_greedy_span_extraction :
    primaryExtract exampleReply =
      some (Json.arr [Json.obj [("title", Json.str "A"), ("duration", Json.num 10)]]) ∧
    matchBracketSpan exampleReply = some "[\x7b\"title\":\"A\",\"duration\":10\x7d]" ∧
    matchBracketSpan exampleReply = firstBalancedArraySpan exampleReply :=
  ⟨rfl, by decide, by decide⟩

set_option maxRecDepth 10000 in
/-- C8 counterexample: a 1001-character reply with no sentence punctuation survives
    cleanup unchanged, enters the truncation branch, and the loop breaks before its
    first (over-long) sentence — cleanAIResponse returns the empty string. -/
theorem c8_counterexample :
    cleanAIResponse (some bigA) = "" ∧ bigA.length = 1001 :=
  ⟨by decide, by decide⟩

/-- C8 (amended): cleanAIResponse substitutes the canned clarifying-question fallback
    for missing input and for any cleaned text below the minimum length, so its output
    is never empty whenever the cleaned text does not exceed 1000 characters; only the
    truncation branch (cleaned length over 1000) can produce empty output. -/
theorem c8_fallback_nonempty :
    cleanAIResponse none = fallbackMsg ∧ fallbackMsg ≠ "" ∧
    (∀ s : String, (cleanCore s).length ≤ 1000 → cleanAIResponse (some s) ≠ "") := by
  refine ⟨rfl, by decide, ?_⟩
  intro s h
  have hfb : fallbackMsg ≠ "" := by decide
  by_cases h0 : (s == "") = true
  · simpa [cleanAIResponse, h0] using hfb
  · have h0' : (s == "") = false := by simpa using h0
    by_cases h1 : (cleanCore s == "" || decide ((cleanCore s).length < 10)) = true
    · simpa [cleanAIResponse, h0', h1] using hfb
    · have h1' : (cleanCore s == "" || decide ((cleanCore s).length < 10)) = false := by
        simpa using h1
      have h2 : ¬ (cleanCore s).length > 1000 := by omega
      have hres : cleanAIResponse (some s) = cleanCore s := by
        simp [cleanAIResponse, h0', h1', h2]
      rw [hres]
      intro hemp
      rw [hemp] at h1'
      simp at h1'

/-- Witness for C8 (amended): a short ordinary reply is returned unchanged and is not
    empty. -/
theorem c8_fallback_nonempty_witness :
    (cleanCore "hello world, this stays").length ≤ 1000 ∧
    cleanAIResponse (some "hello world, this stays") ≠ "" :=
  ⟨by decide, c8_fallback_nonempty.2.2 "hello world, this stays" (by decide)⟩

/-- C9 counterexample: a create-shaped operation with duration 1000 is inserted by the
    Alignment Engine's create pass with duration_minutes 1000, which is outside the
    [5, 480] clamp the claim asserts for every stored AI-sourced task. -/
theorem c9_counterexample :
    ((alignTasksWithPlan noFail "u1" [opD1000] [] none [] 0).db.map
        fun r => r.duration_minutes) = [1000] ∧
    ¬ ((1000 : Int) ≤ 480) :=
  ⟨by decide, by decide⟩

/-- C9 (amended): tasks extracted from a voice transcript are clamped to [5, 480]
    minutes, but the Alignment Engine's create pass inserts the proposed duration
    verbatim (validated positive, never clamped): a proposed duration of 1000 is stored
    and reported as 1000. -/
theorem c9_clamp_voice_only :
    (∀ ts : List RawTask, (processExtractedTasks ts).all
        (fun t => decide (5 ≤ t.duration) && decide (t.duration ≤ 480)) = true) ∧
    ((alignTasksWithPlan noFail "u1" [opD1000] [] none [] 0).insertedTasks.map
        fun r => r.duration) = [1000] ∧
    ((alignTasksWithPlan noFail "u1" [opD1000] [] none [] 0).db.map
        fun r => r.duration_minutes) = [1000] := by
  refine ⟨?_, by decide, by decide⟩
  intro ts
  simp only [processExtractedTasks, List.all_eq_true]
  intro t ht
  rcases List.mem_map.mp ht with ⟨r, _, rfl⟩
  simp only [cleanupVoiceTask, Bool.and_eq_true, decide_eq_true_eq]
  exact ⟨le_min (le_max_right _ _) (by norm_num), min_le_right _ _⟩

/-- C6: callOptimalAI walks the task type's backend priority list strictly in order:
    it returns the payload of the first backend whose fetch succeeds, with modelUsed
    naming that backend and attemptCount equal to the number of backends tried, and it
    surfaces an error only after every backend in the list has been tried and failed,
    with the error message chaining the last underlying error. -/
theorem c6_router_priority_order (env : Nat → FetchOutcome) (taskType : String)
    (hfound : allKeysFound (priorityFor taskType) = true) :
    (∀ k data, (∀ i, i < k → isFailOutcome (env i) = true) → env k = .ok data →
      k < (priorityFor taskType).length →
      callOptimalAI env taskType =
        .ok ⟨data, modelUsedFor ((priorityFor taskType).getD k ""), k + 1⟩) ∧
    ((∀ i, i < (priorityFor taskType).length → isFailOutcome (env i) = true) →
      callOptimalAI env taskType =
        .error ("All AI models failed after " ++
          toString (priorityFor taskType).length ++ " attempts. Last error: " ++
          (lastErrAfter env (priorityFor taskType) 0 none).getD "Unknown error")) := by
  constructor
  · intro k data hfail hok hk
    have h := tryModels_ok env (priorityFor taskType) 0 0 none k data hfound
      (fun i hi => by simpa using hfail i hi) (by simpa using hok) hk
    simpa [callOptimalAI] using h
  · intro hfail
    have h := tryModels_exhaust env (priorityFor taskType) 0 0 none hfound
      (fun i hi => by simpa using hfail i hi)
    simpa [callOptimalAI] using h

/-- Witness for C6: the spec's Model Router scenario — the first two voice-extraction
    backends return HTTP 429 and the third succeeds — yields attemptCount 3 and
    modelUsed naming the third backend of the voice-extraction priority list. -/
theorem c6_router_priority_order_witness :
    callOptimalAI env429 "voice-extraction" =
      .ok ⟨"payload", "Mistral Large 2.1 (mistral-large-2411)", 3⟩ :=
  (c6_router_priority_order env429 "voice-extraction" (by decide)).1 2 "payload"
    (fun i hi => by
      have h01 : i = 0 ∨ i = 1 := by omega
      rcases h01 with rfl | rfl <;> decide)
    (by decide) (by decide)

/-- C5: a create-shaped operation with a missing/blank title or a missing/non-positive
    duration, and a delete- or modify-shaped operation lacking an id, each produce
    exactly one conflict and nothing else: the returned state is the input state with
    one conflict appended — the store, the query counter and all success lists are
    untouched by that item's processing. -/
theorem c5_invalid_items_conflict_only (env : AlignEnv) (uid : String)
    (ex : List DBTask) (op : Op) (st : AlignState) :
    (titleInvalid op.title = true →
      processCreate env uid ex op st = { st with conflicts := st.conflicts ++
        [⟨"Invalid task title: \"" ++ opStringify op ++ "\"",
          "Tasks must have a valid title"⟩] }) ∧
    (titleInvalid op.title = false → durationInvalid op.duration = true →
      processCreate env uid ex op st = { st with conflicts := st.conflicts ++
        [⟨"Invalid task duration: \"" ++ op.title.getD "" ++ "\"",
          "Tasks must have a valid duration in minutes"⟩] }) ∧
    (strFalsy op.id = true →
      processDelete env uid ex op st = { st with conflicts := st.conflicts ++
        [⟨"Cannot delete task without ID: \"" ++
            (if strTruthy op.title then op.title.getD "" else opStringify op) ++ "\"",
          "Skipping deletion due to missing ID"⟩] }) ∧
    (strFalsy op.id = true →
      processModify env uid ex op st = { st with conflicts := st.conflicts ++
        [⟨"Cannot modify task without ID: \"" ++
            (if strTruthy op.title then op.title.getD "" else opStringify op) ++ "\"",
          "Skipping modification due to missing ID"⟩] }) := by
  refine ⟨fun h1 => ?_, fun h1 h2 => ?_, fun h1 => ?_, fun h1 => ?_⟩
  · simp [processCreate, h1]
  · simp [processCreate, h1, h2]
  · simp [processDelete, h1]
  · simp [processModify, h1]

/-- Witness for C5 at concrete items: a create with no title, a create with
    non-positive duration, and id-less delete/modify operations, each against the empty
    initial state, produce exactly the expected single conflict. -/
theorem c5_invalid_items_conflict_only_witness :
    (processCreate noFail "u" [] { action := some "add" }
        { db := [], nextId := 0, qIdx := 0 } =
      { db := [], nextId := 0, qIdx := 0, conflicts :=
        [⟨"Invalid task title: \"" ++ opStringify { action := some "add" } ++ "\"",
          "Tasks must have a valid title"⟩] }) ∧
    (processCreate noFail "u" [] { action := some "add", title := some "T", duration := some 0 }
        { db := [], nextId := 0, qIdx := 0 } =
      { db := [], nextId := 0, qIdx := 0, conflicts :=
        [⟨"Invalid task duration: \"T\"", "Tasks must have a valid duration in minutes"⟩] }) ∧
    (processDelete noFail "u" [] { action := some "delete", title := some "T" }
        { db := [], nextId := 0, qIdx := 0 } =
      { db := [], nextId := 0, qIdx := 0, conflicts :=
        [⟨"Cannot delete task without ID: \"T\"", "Skipping deletion due to missing ID"⟩] }) ∧
    (processModify noFail "u" [] { action := some "modify" }
        { db := [], nextId := 0, qIdx := 0 } =
      { db := [], nextId := 0, qIdx := 0, conflicts :=
        [⟨"Cannot modify task without ID: \"" ++ opStringify { action := some "modify" } ++
            "\"", "Skipping modification due to missing ID"⟩] }) :=
  ⟨(c5_invalid_items_conflict_only noFail "u" [] { action := some "add" }
      { db := [], nextId := 0, qIdx := 0 }).1 (by decide),
   (c5_invalid_items_conflict_only noFail "u" []
      { action := some "add", title := some "T", duration := some 0 }
      { db := [], nextId := 0, qIdx := 0 }).2.1 (by decide) (by decide),
   (c5_invalid_items_conflict_only noFail "u" [] { action := some "delete", title := some "T" }
      { db := [], nextId := 0, qIdx := 0 }).2.2.1 (by decide),
   (c5_invalid_items_conflict_only noFail "u" [] { action := some "modify" }
      { db := [], nextId := 0, qIdx := 0 }).2.2.2 (by decide)⟩

/-- C3: a delete-shaped operation whose id fails the UUID format check but whose title
    resolves (exact case-insensitive match) to an existing task with a well-formed id
    succeeds via the rescue path: deletedTasks records the resolved existing task (its
    real id, necessarily different from the proposed one), the invalid-format issue is
    recorded as a conflict, and the store row with the rescued id is deleted. -/
theorem c3_delete_rescue (uid : String) (op : Op) (ex : List DBTask)
    (plan : Option String) (db : List DBTask) (t : DBTask) (n : Nat)
    (hdel : isDeleteShaped op = true)
    (hid : strTruthy op.id = true)
    (hbad : isValidUUID op.id = false)
    (hfind : findByTitle ex op.title = some t)
    (hgood : isValidUUID (some t.id) = true) :
    (alignTasksWithPlan noFail uid [op] ex plan db n =
      { db := db.filter fun r => !(r.id == t.id && r.user_id == uid)
        nextId := n
        qIdx := 1
        insertedTasks := []
        modifiedTasks := []
        deletedTasks := [DelRec.rescued t]
        conflicts := [⟨"Invalid UUID format for deletion: \"" ++ op.id.getD "" ++ "\"",
          "Skipping deletion due to invalid UUID format"⟩] }) ∧
    op.id ≠ some t.id := by
  obtain ⟨hnc, hnm⟩ := delete_shape_exclusive op hdel
  constructor
  · have halign : alignTasksWithPlan noFail uid [op] ex plan db n =
        processDelete noFail uid ex op
          { db := db, nextId := n, qIdx := 0, insertedTasks := [], modifiedTasks := [],
            deletedTasks := [], conflicts := [] } := by
      unfold alignTasksWithPlan
      rw [show [op].filter isCreateShaped = [] by simp [hnc],
          show [op].filter isDeleteShaped = [op] by simp [hdel],
          show [op].filter isModifyShaped = [] by simp [hnm]]
      rfl
    rw [halign]
    have h1 : strFalsy op.id = false := by simp [strFalsy, hid]
    simp [processDelete, h1, hbad, hfind, hgood, noFail]
  · intro he
    rw [he, hgood] at hbad
    cases hbad

/-- Witness for C3: the spec's end-to-end scenario B — existing task Workout with a
    well-formed id, proposed delete with id "not-a-uuid" and title "Workout" — deletes
    the real row, records the rescued task, and records the invalid-format conflict. -/
theorem c3_delete_rescue_witness :
    (alignTasksWithPlan noFail "u1" [opB] [wRow] none [wRow] 0 =
      { db := [], nextId := 0, qIdx := 1, insertedTasks := [], modifiedTasks := [],
        deletedTasks := [DelRec.rescued wRow],
        conflicts := [⟨"Invalid UUID format for deletion: \"not-a-uuid\"",
          "Skipping deletion due to invalid UUID format"⟩] }) ∧
    opB.id ≠ some wRow.id :=
  c3_delete_rescue "u1" opB [wRow] none [wRow] wRow 0 (by decide) (by decide) (by decide)
    (by decide) (by decide)

/-- C2 counterexample: against the stored task of the spec's field-merge example, whose
    scheduled_time is "09:00", the modify operation supplying only id, action and
    status leaves the row with scheduled_time NULL — the claim's assertion that an
    unset scheduledTime retains the existing value is false. -/
theorem c2_counterexample :
    ((alignTasksWithPlan noFail "u1" [opC2] [] none [t0] 0).db.map
        fun r => r.scheduled_time) = [none] ∧
    ((alignTasksWithPlan noFail "u1" [opC2] [] none [t0] 0).db.map
        fun r => r.scheduled_time) ≠ [some "09:00"] ∧
    t0.scheduled_time = some "09:00" :=
  ⟨by decide, by decide, rfl⟩

/-- C2 (amended): for a modify-shaped operation with a well-formed id matching one of
    the user's stored tasks, the direct modify path merges title, duration, importance
    and status field-by-field (an unset field keeps the stored value), but
    scheduled_time is overwritten: it becomes the proposed value when supplied and NULL
    when unset; the operation is recorded in modifiedTasks with the (merged) title and
    no conflict is recorded. -/
theorem c2_modify_field_merge (uid tid : String) (op : Op) (ex : List DBTask)
    (plan : Option String) (db : List DBTask) (t : DBTask) (n : Nat)
    (hmod : isModifyShaped op = true)
    (hid : op.id = some tid)
    (hvalid : isValidUUID (some tid) = true)
    (hmatch : db.filter (fun r => r.id == tid && r.user_id == uid) = [t]) :
    alignTasksWithPlan noFail uid [op] ex plan db n =
      { db := db.map fun r =>
          if r.id == tid && r.user_id == uid then
            { r with
                title := strOrS op.title r.title
                duration_minutes := intOr op.duration r.duration_minutes
                importance := strOrS op.importance r.importance
                status := strOrS op.status r.status
                scheduled_time := jsOrNull op.scheduledTime }
          else r
        nextId := n
        qIdx := 1
        insertedTasks := []
        modifiedTasks := [{ id := tid, title := strOrS op.title t.title }]
        deletedTasks := []
        conflicts := [] } := by
  obtain ⟨hnc, hnd⟩ := modify_shape_exclusive op hmod
  have htr : (tid == "") = false := uuid_truthy tid hvalid
  have halign : alignTasksWithPlan noFail uid [op] ex plan db n =
      processModify noFail uid ex op
        { db := db, nextId := n, qIdx := 0, insertedTasks := [], modifiedTasks := [],
          deletedTasks := [], conflicts := [] } := by
    unfold alignTasksWithPlan
    rw [show [op].filter isCreateShaped = [] by simp [hnc],
        show [op].filter isDeleteShaped = [] by simp [hnd],
        show [op].filter isModifyShaped = [op] by simp [hmod]]
    rfl
  rw [halign]
  have h1 : strFalsy op.id = false := by simp [strFalsy, strTruthy, hid, htr]
  have h2 : isValidUUID op.id = true := by rw [hid]; exact hvalid
  have hgd : op.id.getD "" = tid := by rw [hid]; rfl
  simp [processModify, h1, h2, hgd, hmatch, noFail, mergeDirect, strOrS_absorb]

/-- Witness for C2 (amended): the spec's field-merge example — only status "done" is
    supplied — leaves title, duration and importance unchanged, flips status to done,
    and clears the stored scheduled_time to NULL. -/
theorem c2_modify_field_merge_witness :
    alignTasksWithPlan noFail "u1" [opC2] [] none [t0] 0 =
      { db := [{ id := uuid0, user_id := "u1", title := "Draft report",
                 duration_minutes := 60, importance := "high", status := "done",
                 scheduled_time := none }]
        nextId := 0
        qIdx := 1
        insertedTasks := []
        modifiedTasks := [{ id := uuid0, title := "Draft report" }]
        deletedTasks := []
        conflicts := [] } := by
  have h := c2_modify_field_merge "u1" uuid0 opC2 [] none [t0] t0 0 (by decide) rfl
    (by decide) (by decide)
  rw [h]
  decide

/-- C4: the engine is total — for every batch, every snapshot and every persistence
    oracle (including per-item failures) it returns an accumulated AlignmentResult in
    which every classified operation is accounted for by at least one record; under an
    oracle where every statement throws, the store is untouched, no success record is
    emitted, and exactly one conflict is recorded per classified operation — each
    per-item failure becomes a conflict and the batch continues. -/
theorem c4_never_throws_partial_results :
    (∀ (env : AlignEnv) (uid : String) (ops : List Op) (ex : List DBTask)
        (plan : Option String) (db : List DBTask) (n : Nat),
      classifiedCount ops ≤ totalEntries (alignTasksWithPlan env uid ops ex plan db n)) ∧
    (∀ (uid : String) (ops : List Op) (ex : List DBTask) (plan : Option String)
        (db : List DBTask) (n : Nat),
      (alignTasksWithPlan allFail uid ops ex plan db n).db = db ∧
      (alignTasksWithPlan allFail uid ops ex plan db n).insertedTasks = [] ∧
      (alignTasksWithPlan allFail uid ops ex plan db n).modifiedTasks = [] ∧
      (alignTasksWithPlan allFail uid ops ex plan db n).deletedTasks = [] ∧
      (alignTasksWithPlan allFail uid ops ex plan db n).conflicts.length =
        (ops.filter isCreateShaped).length + (ops.filter isDeleteShaped).length +
        (ops.filter isModifyShaped).length) := by
  refine ⟨align_total_ge, ?_⟩
  intro uid ops ex plan db n
  obtain ⟨d1, i1, m1, de1, c1⟩ := runPass_conflictOnly _ (processCreate_allFail uid ex)
    (ops.filter isCreateShaped)
    { db := db, nextId := n, qIdx := 0, insertedTasks := [], modifiedTasks := [],
      deletedTasks := [], conflicts := [] }
  obtain ⟨d2, i2, m2, de2, c2⟩ := runPass_conflictOnly _ (processDelete_allFail uid ex)
    (ops.filter isDeleteShaped)
    (runPass (processCreate allFail uid ex) (ops.filter isCreateShaped)
      { db := db, nextId := n, qIdx := 0, insertedTasks := [], modifiedTasks := [],
        deletedTasks := [], conflicts := [] })
  obtain ⟨d3, i3, m3, de3, c3⟩ := runPass_conflictOnly _ (processModify_allFail uid ex)
    (ops.filter isModifyShaped)
    (runPass (processDelete allFail uid ex) (ops.filter isDeleteShaped)
      (runPass (processCreate allFail uid ex) (ops.filter isCreateShaped)
        { db := db, nextId := n, qIdx := 0, insertedTasks := [], modifiedTasks := [],
          deletedTasks := [], conflicts := [] }))
  have halign : alignTasksWithPlan allFail uid ops ex plan db n =
      runPass (processModify allFail uid ex) (ops.filter isModifyShaped)
        (runPass (processDelete allFail uid ex) (ops.filter isDeleteShaped)
          (runPass (processCreate allFail uid ex) (ops.filter isCreateShaped)
            { db := db, nextId := n, qIdx := 0, insertedTasks := [], modifiedTasks := [],
              deletedTasks := [], conflicts := [] })) := rfl
  rw [halign]
  refine ⟨by rw [d3, d2, d1], by rw [i3, i2, i1], by rw [m3, m2, m1],
    by rw [de3, de2, de1], ?_⟩
  rw [c3, c2, c1]
  simp

/-- C1 (amended): the engine accounts for every operation matching one of the three
    recognized shapes (each contributes at least one record or conflict), but an
    operation matching none of them — an unrecognized action value, or an id with no
    action — is silently dropped: the result is identical to aligning the batch with
    all unclassified operations removed, and no conflict is recorded for them. -/
theorem c1_unmatched_ops_dropped :
    (∀ (env : AlignEnv) (uid : String) (ops : List Op) (ex : List DBTask)
        (plan : Option String) (db : List DBTask) (n : Nat),
      alignTasksWithPlan env uid ops ex plan db n =
        alignTasksWithPlan env uid (ops.filter isClassified) ex plan db n) ∧
    (∀ (env : AlignEnv) (uid : String) (ops : List Op) (ex : List DBTask)
        (plan : Option String) (db : List DBTask) (n : Nat),
      classifiedCount ops ≤ totalEntries (alignTasksWithPlan env uid ops ex plan db n)) := by
  constructor
  · intro env uid ops ex plan db n
    unfold alignTasksWithPlan
    rw [filter_absorb isCreateShaped (fun o h => by simp [isClassified, h]) ops,
        filter_absorb isDeleteShaped (fun o h => by simp [isClassified, h]) ops,
        filter_absorb isModifyShaped (fun o h => by simp [isClassified, h]) ops]
  · exact fun env uid ops ex plan db n => align_total_ge env uid ops ex plan db n

/-- C1 counterexample: an operation carrying an id but no action, and an operation
    with the unrecognized action "reschedule", match none of the three passes: the
    engine returns the empty result with no conflict recorded for either. -/
theorem c1_counterexample :
    alignTasksWithPlan noFail "u" [opU1, opU2] [] none [] 0 =
      { db := [], nextId := 0, qIdx := 0, insertedTasks := [], modifiedTasks := [],
        deletedTasks := [], conflicts := [] } := by
  decide

end Call2Code
